import Mathlib

/-!
Verification of the meross-rebooter account-connection service.

The Python sources (`meross_service.py`, `firestore_repo.py`, `models.py`,
`crypto_utils.py`, `main.py`) are shallowly embedded below: Python runtime
values become the inductive `PyVal`, attribute-bearing objects and dicts
become association lists, the Firestore collection becomes an explicit
`Store` state threaded through each repository operation, and the vendor
HTTP client (the external `meross_iot` library) is abstracted as an oracle
scripting the outcome of each login call.
-/

namespace MerossRebooter

/-- Universe of Python runtime values manipulated by the service: `None`,
booleans, integers, text strings and byte strings.  Credential attributes,
device-record fields and normalized device values all live here. -/
inductive PyVal where
  | vNone
  | vBool (b : Bool)
  | vInt (n : Int)
  | vStr (s : String)
  | vBytes (bs : List Nat)
deriving DecidableEq, Repr

/-- Python truthiness (`bool(v)`): `None`, `False`, `0`, `""` and `b""` are
falsy, everything else truthy. -/
def pyTruthy : PyVal → Bool
  | .vNone => false
  | .vBool b => b
  | .vInt n => n != 0
  | .vStr s => s ≠ ""
  | .vBytes bs => bs ≠ []

/-- Python `a or b`: the first operand when truthy, otherwise the second. -/
def pyOr (a b : PyVal) : PyVal := if pyTruthy a then a else b

/-- Python `str(v)` for the values of `PyVal` (only its totality matters to
the claims; the legacy token branch stores `str(http.token)`). -/
def pyStr : PyVal → String
  | .vNone => "None"
  | .vBool true => "True"
  | .vBool false => "False"
  | .vInt n => toString n
  | .vStr s => s
  | .vBytes bs => "bytes" ++ toString bs

/-- Association-list lookup, used both for `dict.get` and for
`hasattr`/`getattr` probing of attribute-bearing objects. -/
def alookup {β : Type} : List (String × β) → String → Option β
  | [], _ => none
  | kv :: rest, k => if kv.1 = k then some kv.2 else alookup rest k

/-- A Python dict of string keys, or equally the attribute table of an
object (`__dict__`): an association list in insertion order. -/
abbrev PyDict := List (String × PyVal)

/-- `d.get(k)`: the stored value, or `None` when the key is absent. -/
def dictGet (d : PyDict) (k : String) : PyVal :=
  match alookup d k with
  | some v => v
  | none => .vNone

/-- `getattr(o, k, dflt)`: the attribute value, or the default when the
attribute is absent. -/
def getattrD (o : PyDict) (k : String) (dflt : PyVal) : PyVal :=
  match alookup o k with
  | some v => v
  | none => dflt

/-- `data[k] = v` on a dict: replace the value of an existing key in place,
otherwise append the new key at the end. -/
def dictSet : PyDict → String → PyVal → PyDict
  | [], k, v => [(k, v)]
  | kv :: rest, k, v => if kv.1 = k then (k, v) :: rest else kv :: dictSet rest k v

/-- The keys of a dict, in order. -/
def dictKeys (d : PyDict) : List String := d.map Prod.fst

/-- `hasattr(o, k)`. -/
def hasattr (o : PyDict) (k : String) : Bool := (alookup o k).isSome

-- ---------------------------------------------------------------------
-- Credential Extractor (meross_service.py, _extract_cloud_creds_whitelist
-- and _extract_token_payload)
-- ---------------------------------------------------------------------

/-- The alias table of `_extract_cloud_creds_whitelist`: source attribute
name paired with the canonical destination key. -/
def key_map : List (String × String) :=
  [("token", "token"),
   ("key", "key"),
   ("userid", "userid"),
   ("userId", "userid"),
   ("email", "email"),
   ("domain", "domain"),
   ("region", "region"),
   ("mqttDomain", "mqttDomain"),
   ("mqtt_domain", "mqttDomain"),
   ("mqttPort", "mqttPort"),
   ("mqtt_port", "mqttPort")]

/-- One iteration of the `for src, dst in key_map` loop: if the attribute is
present and its value is not `None`, write it under the destination key. -/
def whitelistStep (creds : PyDict) (data : PyDict) (sd : String × String) : PyDict :=
  match alookup creds sd.1 with
  | some v => if v = PyVal.vNone then data else dictSet data sd.2 v
  | none => data

/-- `MerossService._extract_cloud_creds_whitelist`: fold the alias table
over an empty dict, then add `cloudToken` when that attribute is present
and truthy.  Values are copied verbatim. -/
def extract_cloud_creds_whitelist (creds : PyDict) : PyDict :=
  let data := key_map.foldl (whitelistStep creds) []
  match alookup creds "cloudToken" with
  | some v => if pyTruthy v then dictSet data "cloudToken" v else data
  | none => data

/-- A raw device record handed back by the vendor: either a mapping
(`isinstance(d, dict)` true) or an attribute-bearing object. -/
inductive RawDevice where
  | dict (d : PyDict)
  | obj (o : PyDict)
deriving DecidableEq

/-- The raw result of `async_list_devices`: a list of raw records, or any
non-list value (which the normalizer maps to the empty list). -/
inductive SessionDevices where
  | list (ds : List RawDevice)
  | notList
deriving DecidableEq

/-- The vendor session handle as the extractor and the orchestrator see it:
the optional `cloud_credentials` attribute (with its Python truthiness and
its attribute table), the optional legacy `token` attribute, and the
scripted outcome of `async_list_devices` (raw device values wrapped in
`Except` for a raised vendor error). -/
structure Session where
  cloud_credentials : Option (Bool × PyDict) := none
  token : Option PyVal := none
  devices_raw : Except String SessionDevices := Except.ok (SessionDevices.list [])

/-- `MerossService._extract_token_payload`: prefer the modern nested
credential object when the attribute exists and is truthy, else the legacy
flat token when present and truthy, else the residual
`{session: "unknown"}` shape. -/
def extract_token_payload (http : Session) : PyDict :=
  match http.cloud_credentials with
  | some (true, creds) => extract_cloud_creds_whitelist creds
  | _ =>
    match http.token with
    | some v =>
      if pyTruthy v then [("token", PyVal.vStr (pyStr v))]
      else [("session", PyVal.vStr "unknown")]
    | none => [("session", PyVal.vStr "unknown")]

/-- The key whitelist of the specification: the nine whitelisted credential
fields together with the two reserved fallback keys `token` and `session`. -/
def whitelistKeys : List String :=
  ["token", "key", "userid", "email", "domain", "region",
   "mqttDomain", "mqttPort", "cloudToken", "session"]

/-- `json.dumps` succeeds on a `PyVal` exactly when it is not a byte
string (`bytes` is not JSON-serializable and raises `TypeError`). -/
def pyJsonSafe : PyVal → Bool
  | .vBytes _ => false
  | _ => true

/-- `json.dumps` succeeds on an extracted payload exactly when every value
is JSON-safe. -/
def payloadJsonSafe (d : PyDict) : Bool := d.all (fun kv => pyJsonSafe kv.2)

/-- A stand-in for the text produced by `json.dumps(payload)`; only its
existence as opaque stored data matters to the claims. -/
def jsonEncode : PyDict → String
  | [] => ""
  | kv :: rest => kv.1 ++ ":" ++ pyStr kv.2 ++ ";" ++ jsonEncode rest

-- ---------------------------------------------------------------------
-- Device Normalizer (meross_service.py, _normalize_devices)
-- ---------------------------------------------------------------------

/-- Does this value have Python type `bool` (`isinstance(v, bool)`)? -/
def isPyBool : PyVal → Bool
  | .vBool _ => true
  | _ => false

/-- The mapping branch of `_normalize_devices`: build the canonical record
from a dict-shaped raw device. -/
def normalize_dict_device (d : PyDict) : PyDict :=
  let device_id :=
    pyOr (dictGet d "uuid") (pyOr (dictGet d "deviceId") (pyOr (dictGet d "id") (.vStr "")))
  [("deviceId", device_id),
   ("name", pyOr (dictGet d "devName") (dictGet d "name")),
   ("model", pyOr (dictGet d "deviceType") (dictGet d "model")),
   ("type", pyOr (dictGet d "deviceType") (dictGet d "type")),
   ("onlineStatus",
     if isPyBool (dictGet d "onlineStatus") then dictGet d "onlineStatus" else PyVal.vNone),
   ("capabilities", pyOr (dictGet d "abilities") (dictGet d "capabilities"))]

/-- The attribute branch of `_normalize_devices`: build the canonical
record from an attribute-bearing raw device. -/
def normalize_obj_device (o : PyDict) : PyDict :=
  let device_id :=
    pyOr (getattrD o "uuid" (.vStr "")) (pyOr (getattrD o "device_id" (.vStr "")) (.vStr ""))
  [("deviceId", device_id),
   ("name", getattrD o "name" PyVal.vNone),
   ("model", getattrD o "model" PyVal.vNone),
   ("type", getattrD o "type" PyVal.vNone),
   ("onlineStatus", getattrD o "online_status" PyVal.vNone),
   ("capabilities",
     pyOr (getattrD o "abilities" PyVal.vNone) (getattrD o "capabilities" PyVal.vNone))]

/-- `MerossService._normalize_devices`: empty output on non-list input,
else normalize each record through the branch matching its shape. -/
def normalize_devices : SessionDevices → List PyDict
  | .list ds =>
    ds.map (fun d =>
      match d with
      | .dict m => normalize_dict_device m
      | .obj o => normalize_obj_device o)
  | .notList => []

-- ---------------------------------------------------------------------
-- Account Store (firestore_repo.py) with the Fernet codec of
-- crypto_utils.py modelled abstractly
-- ---------------------------------------------------------------------

/-- Modelled from the spec: `crypto_utils.encrypt_str` seals text with the
external Fernet symmetric codec; it is modelled as an invertible tagging
encoder (Fernet ciphertexts are never empty, which the tag preserves). -/
def encrypt_str (value : String) : String := "fernet:" ++ value

/-- Modelled from the spec: `crypto_utils.decrypt_str`, the inverse of
`encrypt_str`. -/
def decrypt_str (value_enc : String) : String := value_enc.drop 7

/-- One document of the `merossAccounts` collection, as written by
`FirestoreRepo`: the auth map is flattened to its single field
`tokenEncrypted` (the empty string standing for an absent or falsy
ciphertext), and `devices` is absent until `set_account_devices` runs. -/
structure AccountDoc where
  email : String
  status : String
  createdAt : String
  lastSyncedAt : Option String
  tokenEncrypted : String
  devices : Option (List PyDict)
deriving DecidableEq

/-- Association-list lookup keyed by document id. -/
def dlookup {β : Type} : List (Nat × β) → Nat → Option β
  | [], _ => none
  | kv :: rest, k => if kv.1 = k then some kv.2 else dlookup rest k

/-- The Firestore collection state: documents keyed by store-assigned ids,
plus the counter from which `collection.document()` draws its next fresh
auto-id. -/
structure Store where
  docs : List (Nat × AccountDoc)
  nextId : Nat
deriving DecidableEq

/-- The empty collection. -/
def store0 : Store := { docs := [], nextId := 0 }

/-- `FirestoreRepo.create_or_update_account_auth`: `document()` with no
argument draws a fresh auto-id and `set` writes a brand-new document with
the encrypted token; the call returns the new document id. -/
def create_or_update_account_auth (st : Store) (email token_plain now : String) :
    Store × Nat :=
  let doc : AccountDoc :=
    { email := email, status := "connected", createdAt := now,
      lastSyncedAt := none, tokenEncrypted := encrypt_str token_plain,
      devices := none }
  ({ docs := st.docs ++ [(st.nextId, doc)], nextId := st.nextId + 1 }, st.nextId)

/-- `FirestoreRepo.set_account_devices`: update the addressed document
with the device list, a fresh `lastSyncedAt` and the reaffirmed status
(in the orchestrator it is only ever called on the just-created id). -/
def set_account_devices (st : Store) (account_id : Nat) (devices : List PyDict)
    (now : String) : Store :=
  let upd : AccountDoc → AccountDoc := fun doc =>
    { doc with devices := some devices, lastSyncedAt := some now, status := "connected" }
  { st with docs := st.docs.map (fun kv => if kv.1 = account_id then (kv.1, upd kv.2) else kv) }

/-- `FirestoreRepo.get_account_token`: `None` when the document is missing
or its stored ciphertext is falsy, else the decrypted token. -/
def get_account_token (st : Store) (account_id : Nat) : Option String :=
  match dlookup st.docs account_id with
  | none => none
  | some doc =>
    if doc.tokenEncrypted = "" then none else some (decrypt_str doc.tokenEncrypted)

/-- The Python exception raised by `sync_devices`: `KeyError` or
`ValueError`, with its message. -/
inductive SyncError where
  | keyError (msg : String)
  | valueError (msg : String)
deriving DecidableEq

/-- Message of the `KeyError` raised when no credential is stored. -/
def accountNotFoundMessage : String := "account not found"

/-- Message of the `ValueError` that `sync_devices` always raises once a
credential was found. -/
def syncUnsupportedMessage : String :=
  "Token-based sync is not enabled in MVP. Please reconnect the account to refresh devices."

/-- `MerossService.sync_devices` in state-passing form: read the stored
token, raise `KeyError` when it is absent, otherwise raise `ValueError`;
the returned store models the collection state when the call ends. -/
def sync_devices (st : Store) (account_id : Nat) :
    Store × Except SyncError (List PyDict) :=
  match get_account_token st account_id with
  | none => (st, Except.error (SyncError.keyError accountNotFoundMessage))
  | some _ => (st, Except.error (SyncError.valueError syncUnsupportedMessage))

-- ---------------------------------------------------------------------
-- Login Strategy Engine and Account Connection Orchestrator
-- (meross_service.py, connect_account and _login)
-- ---------------------------------------------------------------------

/-- The four call signatures `_login` tries against
`MerossHttpClient.async_from_user_password`, in order: keyword form with
`api_base_url`, keyword form without it, positional `(url, email, pw)`,
positional `(email, pw, url)`. -/
inductive SigShape where
  | kwWithUrl
  | kwNoUrl
  | posWithUrl
  | posNoUrl
deriving DecidableEq

/-- Scripted outcome of one vendor login call: a raised `TypeError`
(signature mismatch), any other raised exception carrying its text, or a
returned value (a session handle, or `None`). -/
inductive CallResult where
  | typeError
  | raiseOther (msg : String)
  | ret (s : Option Session)

/-- `MerossService._login` for one endpoint: try the four signatures in
order, moving on only on `TypeError`; the first non-`TypeError` outcome is
returned or propagated, and a fourth `TypeError` propagates as well. -/
def loginCascade (f : SigShape → CallResult) : Except String (Option Session) :=
  match f .kwWithUrl with
  | .raiseOther m => .error m
  | .ret s => .ok s
  | .typeError =>
    match f .kwNoUrl with
    | .raiseOther m => .error m
    | .ret s => .ok s
    | .typeError =>
      match f .posWithUrl with
      | .raiseOther m => .error m
      | .ret s => .ok s
      | .typeError =>
        match f .posNoUrl with
        | .raiseOther m => .error m
        | .ret s => .ok s
        | .typeError => .error "TypeError"

/-- The endpoint candidates of `connect_account`, declared in source
order. -/
def api_candidates : List String :=
  ["https://iotx.meross.com",
   "https://iot.meross.com",
   "https://iotx-us.meross.com",
   "https://iotx-eu.meross.com",
   "https://iotx-ap.meross.com"]

/-- Observable events of one `connect_account` call: a login attempt
against an endpoint, the logout call, the terminal close call. -/
inductive Event where
  | loginAttempt (url : String)
  | logoutCall
  | closeCall
deriving DecidableEq

/-- Occurrence count of an event in a trace. -/
def countEvent (tr : List Event) (e : Event) : Nat :=
  (tr.filter (fun x => x = e)).length

/-- The `for api_base_url in api_candidates` loop: attempt each endpoint
in order, recording the attempt; a raised error or a `None` return moves
to the next candidate, and the first session handle stops the loop. -/
def tryCandidates (f : String → Except String (Option Session)) :
    List String → List Event × Option Session
  | [] => ([], none)
  | c :: rest =>
    match f c with
    | .ok (some s) => ([.loginAttempt c], some s)
    | _ =>
      let r := tryCandidates f rest
      (.loginAttempt c :: r.1, r.2)

/-- The scripted environment of one `connect_account` call: the vendor
login oracle per endpoint and signature, whether each later stage raises,
and the wall-clock timestamp the repository writes. -/
structure ConnectEnv where
  login : String → SigShape → CallResult
  persistAuthFails : Bool := false
  persistDevicesFails : Bool := false
  logoutFails : Bool := false
  closeFails : Bool := false
  now : String := "t0"

/-- The Login Strategy Engine: the candidate loop driving `_login`. -/
def engine_result (env : ConnectEnv) : List Event × Option Session :=
  tryCandidates (fun url => loginCascade (env.login url)) api_candidates

/-- The message of the `ValueError` raised when every candidate is
exhausted, verbatim from the source. -/
def loginFailedMessage : String :=
  "Meross login failed. If you use Apple/Google sign-in, please set/reset a Meross password in the Meross app and try again."

/-- Outcome of `connect_account` at the service boundary: the returned
mapping, the `ValueError` of a failed login, or any other exception
identified by its kind tag. -/
inductive ConnectOutcome where
  | ok (accountId : Nat) (status : String) (devices : List PyDict)
  | valueError (msg : String)
  | otherError (kind : String)
deriving DecidableEq

/-- Python `try: ...; except Exception: pass`: whatever the guarded call
did, continue with the same continuation value. -/
def ignoringExcept {α : Type} (e : Except String Unit) (x : α) : α :=
  match e with
  | .ok _ => x
  | .error _ => x

/-- The body of `connect_account` after a session handle was obtained:
extract the payload, serialize it (raising `TypeError` on a non-JSON-safe
value), list and normalize devices, persist the auth record then the
device list, and log out with the failure swallowed.  Returns the store,
the events after login, and the outcome. -/
def connectBody (env : ConnectEnv) (st : Store) (email : String) (http : Session) :
    Store × List Event × ConnectOutcome :=
  let payload := extract_token_payload http
  if payloadJsonSafe payload = false then
    (st, [], ConnectOutcome.otherError "TypeError")
  else
    match http.devices_raw with
    | Except.error kind => (st, [], ConnectOutcome.otherError kind)
    | Except.ok raw =>
      let devices := normalize_devices raw
      if env.persistAuthFails then (st, [], ConnectOutcome.otherError "StoreError")
      else
        let res := create_or_update_account_auth st email (jsonEncode payload) env.now
        if env.persistDevicesFails then (res.1, [], ConnectOutcome.otherError "StoreError")
        else
          let st2 := set_account_devices res.1 res.2 devices env.now
          ignoringExcept (if env.logoutFails then Except.error "logout" else Except.ok ())
            (st2, [Event.logoutCall], ConnectOutcome.ok res.2 "connected" devices)

/-- `MerossService.connect_account`: run the Login Strategy Engine; with
no session the `ValueError` is raised and the `finally` block has nothing
to close; with a session the body runs and the `finally` block closes the
handle on every path, swallowing a close failure. -/
def connect_account (env : ConnectEnv) (st : Store) (email password : String) :
    Store × List Event × ConnectOutcome :=
  match (engine_result env).2 with
  | none => (st, (engine_result env).1, ConnectOutcome.valueError loginFailedMessage)
  | some http =>
    ignoringExcept (if env.closeFails then Except.error "close" else Except.ok ())
      ((connectBody env st email http).1,
       (engine_result env).1 ++ (connectBody env st email http).2.1 ++ [Event.closeCall],
       (connectBody env st email http).2.2)

/-- Number of documents of the collection carrying a given email. -/
def countEmail (st : Store) (email : String) : Nat :=
  (st.docs.filter (fun kv => kv.2.email = email)).length

/-- Is `needle` a leading segment of `hay`? (character lists) -/
def hasPrefixCh : List Char → List Char → Bool
  | [], _ => true
  | _ :: _, [] => false
  | c :: cs, d :: ds => c = d && hasPrefixCh cs ds

/-- Does `needle` occur contiguously anywhere inside `hay`?
(character lists) -/
def hasSubCh (needle : List Char) : List Char → Bool
  | [] => needle.isEmpty
  | d :: ds => hasPrefixCh needle (d :: ds) || hasSubCh needle ds

/-- The Bool form of store well-formedness: every existing document id was
drawn from the auto-id counter, so the next fresh id is unused. -/
def storeWFb (st : Store) : Bool := st.docs.all (fun kv => kv.1 < st.nextId)

-- ---------------------------------------------------------------------
-- Helper lemmas
-- ---------------------------------------------------------------------

/-- Swallowing a failure leaves the continuation value unchanged. -/
theorem ignoringExcept_eq {α : Type} (e : Except String Unit) (x : α) :
    ignoringExcept e x = x := by
  cases e <;> rfl

/-- When the first session-yielding candidate sits at index `i`, the loop
attempts exactly the first `i + 1` candidates, in order, and returns that
candidate's session. -/
theorem tryCandidates_first_success (f : String → Except String (Option Session)) :
    ∀ (l : List String) (i : Nat) (s : Session), i < l.length →
      (∀ j, j < i → ∀ s', f (l.getD j "") ≠ Except.ok (some s')) →
      f (l.getD i "") = Except.ok (some s) →
      tryCandidates f l = ((l.take (i + 1)).map Event.loginAttempt, some s) := by
  intro l
  induction l with
  | nil =>
    intro i s hi
    simp at hi
  | cons c rest ih =>
    intro i s hi hbefore hsucc
    cases i with
    | zero =>
      simp only [List.getD_cons_zero] at hsucc
      unfold tryCandidates
      simp [hsucc]
    | succ i' =>
      have hc : ∀ s', f c ≠ Except.ok (some s') := by
        intro s'
        have h0 := hbefore 0 (Nat.succ_pos i') s'
        simpa using h0
      have hrec := ih i' s (by simpa using hi)
        (fun j hj s' => by simpa using hbefore (j + 1) (Nat.succ_lt_succ hj) s')
        (by simpa using hsucc)
      unfold tryCandidates
      cases hfc : f c with
      | error m => simp [hrec]
      | ok o =>
        cases o with
        | none => simp [hrec]
        | some s' => exact absurd hfc (hc s')

/-- When no candidate yields a session, the loop attempts every candidate
once, in order, and returns nothing. -/
theorem tryCandidates_all_fail (f : String → Except String (Option Session)) :
    ∀ l : List String, (∀ c ∈ l, ∀ s, f c ≠ Except.ok (some s)) →
      tryCandidates f l = (l.map Event.loginAttempt, none) := by
  intro l
  induction l with
  | nil => intro _; rfl
  | cons c rest ih =>
    intro hall
    have hc : ∀ s, f c ≠ Except.ok (some s) := hall c (List.mem_cons_self _ _)
    have hrest := ih (fun d hd s => hall d (List.mem_cons_of_mem _ hd) s)
    unfold tryCandidates
    cases hfc : f c with
    | error m => simp [hrest]
    | ok o =>
      cases o with
      | none => simp [hrest]
      | some s' => exact absurd hfc (hc s')

/-- When some candidate yields a session, the loop result carries a
session. -/
theorem tryCandidates_isSome (f : String → Except String (Option Session)) :
    ∀ (l : List String) (c : String) (s : Session), c ∈ l →
      f c = Except.ok (some s) → ∃ s', (tryCandidates f l).2 = some s' := by
  intro l
  induction l with
  | nil =>
    intro c s hc
    cases hc
  | cons a rest ih =>
    intro c s hc hfc
    unfold tryCandidates
    cases hfa : f a with
    | error m =>
      have hcr : c ∈ rest := by
        rcases List.mem_cons.mp hc with h | h
        · subst h; rw [hfc] at hfa; cases hfa
        · exact h
      obtain ⟨s', hs'⟩ := ih c s hcr hfc
      exact ⟨s', by simpa using hs'⟩
    | ok o =>
      cases o with
      | none =>
        have hcr : c ∈ rest := by
          rcases List.mem_cons.mp hc with h | h
          · subst h; rw [hfc] at hfa; cases hfa
          · exact h
        obtain ⟨s', hs'⟩ := ih c s hcr hfc
        exact ⟨s', by simpa using hs'⟩
      | some s' => exact ⟨s', by simp⟩

/-- The logout and close failure flags never reach the body's result. -/
theorem connectBody_ignores_cleanup_flags (env : ConnectEnv) (b1 b2 : Bool)
    (st : Store) (email : String) (http : Session) :
    connectBody { env with logoutFails := b1, closeFails := b2 } st email http
      = connectBody env st email http := by
  unfold connectBody
  simp only [ignoringExcept_eq]

/-- Updating the document under an id that matches no entry leaves the
document list untouched. -/
theorem map_updIf_fresh {β : Type} (f : β → β) (docs : List (Nat × β)) (nid : Nat)
    (h : ∀ kv ∈ docs, kv.1 ≠ nid) :
    docs.map (fun kv => if kv.1 = nid then (kv.1, f kv.2) else kv) = docs := by
  conv_rhs => rw [← List.map_id docs]
  refine List.map_congr_left ?_
  intro kv hkv
  simp [h kv hkv]

/-- A key of `dictSet d k v` is either `k` or a key of `d`. -/
theorem mem_dictKeys_dictSet {d : PyDict} {k : String} {v : PyVal} {x : String}
    (h : x ∈ dictKeys (dictSet d k v)) : x = k ∨ x ∈ dictKeys d := by
  induction d with
  | nil =>
    simp [dictSet, dictKeys] at h
    exact Or.inl h
  | cons kv rest ih =>
    by_cases hk : kv.1 = k
    · simp [dictSet, hk, dictKeys] at h
      rcases h with h | h
      · exact Or.inl h
      · exact Or.inr (by simp [dictKeys]; exact Or.inr h)
    · simp [dictSet, hk, dictKeys] at h
      rcases h with h | h
      · exact Or.inr (by simp [dictKeys, h])
      · rcases ih (by simpa [dictKeys] using h) with h1 | h1
        · exact Or.inl h1
        · refine Or.inr ?_
          simp [dictKeys] at h1 ⊢
          exact Or.inr h1

/-- A key produced by folding the whitelist loop comes from the initial
dict or is a destination key of the alias table. -/
theorem mem_dictKeys_foldl_whitelistStep (creds : PyDict) :
    ∀ (l : List (String × String)) (init : PyDict) (x : String),
      x ∈ dictKeys (l.foldl (whitelistStep creds) init) →
      x ∈ dictKeys init ∨ ∃ p, p ∈ l ∧ p.2 = x := by
  intro l
  induction l with
  | nil =>
    intro init x h
    exact Or.inl (by simpa using h)
  | cons sd rest ih =>
    intro init x h
    rw [List.foldl_cons] at h
    rcases ih (whitelistStep creds init sd) x h with h1 | h1
    · unfold whitelistStep at h1
      cases hl : alookup creds sd.1 with
      | none =>
        simp only [hl] at h1
        exact Or.inl h1
      | some v =>
        simp only [hl] at h1
        by_cases hv : v = PyVal.vNone
        · simp only [if_pos hv] at h1
          exact Or.inl h1
        · simp only [if_neg hv] at h1
          rcases mem_dictKeys_dictSet h1 with h2 | h2
          · exact Or.inr ⟨sd, List.mem_cons_self _ _, h2.symm⟩
          · exact Or.inl h2
    · rcases h1 with ⟨p, hp, hpx⟩
      exact Or.inr ⟨p, List.mem_cons_of_mem _ hp, hpx⟩

/-- Every key of the whitelist extraction is a whitelisted key. -/
theorem keys_extract_cloud_creds_whitelist (creds : PyDict) (k : String)
    (hk : k ∈ dictKeys (extract_cloud_creds_whitelist creds)) : k ∈ whitelistKeys := by
  have base : ∀ x, x ∈ dictKeys (key_map.foldl (whitelistStep creds) []) →
      x ∈ whitelistKeys := by
    intro x hx
    rcases mem_dictKeys_foldl_whitelistStep creds key_map [] x hx with h | ⟨p, hp, hpx⟩
    · simp [dictKeys] at h
    · have hall : ∀ q ∈ key_map, q.2 ∈ whitelistKeys := by decide
      exact hpx ▸ hall p hp
  unfold extract_cloud_creds_whitelist at hk
  cases hl : alookup creds "cloudToken" with
  | none =>
    simp only [hl] at hk
    exact base k hk
  | some v =>
    simp only [hl] at hk
    cases hv : pyTruthy v with
    | false =>
      simp only [hv, Bool.false_eq_true, if_false] at hk
      exact base k hk
    | true =>
      simp only [hv, if_true] at hk
      rcases mem_dictKeys_dictSet hk with h | h
      · subst h; decide
      · exact base k h

-- ---------------------------------------------------------------------
-- Claim theorems
-- ---------------------------------------------------------------------

/-- C1: for every session object, every key of the mapping returned by the
Credential Extractor belongs to the whitelist
token, key, userid, email, domain, region, mqttDomain, mqttPort,
cloudToken together with the reserved fallback keys token and session; an
attribute with any other name never appears as an output key. -/
theorem c1_extractor_key_whitelist (http : Session) (k : String)
    (hk : k ∈ dictKeys (extract_token_payload http)) : k ∈ whitelistKeys := by
  unfold extract_token_payload at hk
  have htok : ∀ hk' : k ∈ dictKeys
      (match http.token with
       | some v =>
         if pyTruthy v then [("token", PyVal.vStr (pyStr v))]
         else [("session", PyVal.vStr "unknown")]
       | none => [("session", PyVal.vStr "unknown")]), k ∈ whitelistKeys := by
    intro hk'
    cases ht : http.token with
    | none =>
      simp only [ht] at hk'
      simp [dictKeys] at hk'
      subst hk'; decide
    | some v =>
      simp only [ht] at hk'
      cases hv : pyTruthy v with
      | true =>
        simp only [hv, if_true] at hk'
        simp [dictKeys] at hk'
        subst hk'; decide
      | false =>
        simp only [hv, Bool.false_eq_true, if_false] at hk'
        simp [dictKeys] at hk'
        subst hk'; decide
  cases hcc : http.cloud_credentials with
  | none =>
    simp only [hcc] at hk
    exact htok hk
  | some bc =>
    obtain ⟨b, creds⟩ := bc
    cases b with
    | true =>
      simp only [hcc] at hk
      exact keys_extract_cloud_creds_whitelist creds k hk
    | false =>
      simp only [hcc] at hk
      exact htok hk

/-- Witness for C1: a concrete legacy-shape session yields the key
`token`, which the theorem places inside the whitelist. -/
theorem c1_extractor_key_whitelist_witness :
    "token" ∈ dictKeys (extract_token_payload { token := some (PyVal.vStr "abc") }) ∧
    "token" ∈ whitelistKeys :=
  ⟨by decide,
   c1_extractor_key_whitelist { token := some (PyVal.vStr "abc") } "token" (by decide)⟩

/-- C3 counterexample: an attribute-bearing raw record whose
`online_status` attribute holds the string "online" is normalized with
`onlineStatus` equal to that string, which is neither boolean nor absent —
refuting the claim that every non-boolean source value yields absent on
both record shapes. -/
theorem c3_counterexample_obj_string_copied :
    alookup ((normalize_devices
        (SessionDevices.list [RawDevice.obj [("online_status", PyVal.vStr "online")]])).getD 0 [])
        "onlineStatus" = some (PyVal.vStr "online") ∧
    isPyBool (PyVal.vStr "online") = false ∧ PyVal.vStr "online" ≠ PyVal.vNone := by
  refine ⟨by decide, by decide, by decide⟩

/-- C3 amended: on mapping-shaped records the normalizer emits the source
`onlineStatus` exactly when it is strictly boolean and `None` otherwise;
on attribute-bearing records it copies the source `online_status` value
verbatim (defaulting to `None` when absent), with no boolean filtering. -/
theorem c3_amended_online_status_policy (d : PyDict) :
    (isPyBool (dictGet d "onlineStatus") = true →
      alookup (normalize_dict_device d) "onlineStatus" = some (dictGet d "onlineStatus")) ∧
    (isPyBool (dictGet d "onlineStatus") = false →
      alookup (normalize_dict_device d) "onlineStatus" = some PyVal.vNone) ∧
    alookup (normalize_obj_device d) "onlineStatus"
      = some (getattrD d "online_status" PyVal.vNone) := by
  refine ⟨?_, ?_, ?_⟩
  · intro h
    simp [normalize_dict_device, alookup, h]
  · intro h
    simp [normalize_dict_device, alookup, h]
  · simp [normalize_obj_device, alookup]

/-- Witness for C3 (amended): the strict-boolean filter on a mapping
record, exercised on a boolean source and on a string source. -/
theorem c3_amended_online_status_policy_witness :
    alookup (normalize_dict_device [("onlineStatus", PyVal.vBool true)]) "onlineStatus"
      = some (dictGet [("onlineStatus", PyVal.vBool true)] "onlineStatus") ∧
    alookup (normalize_dict_device [("onlineStatus", PyVal.vStr "on")]) "onlineStatus"
      = some PyVal.vNone :=
  ⟨(c3_amended_online_status_policy [("onlineStatus", PyVal.vBool true)]).1 (by decide),
   (c3_amended_online_status_policy [("onlineStatus", PyVal.vStr "on")]).2.1 (by decide)⟩

/-- C4 counterexample: a session whose modern `cloud_credentials`
attribute is present and truthy but exposes no whitelisted field makes
the Credential Extractor return the empty mapping — refuting the claim
that the output is never empty. -/
theorem c4_counterexample_empty_mapping :
    extract_token_payload { cloud_credentials := some (true, []) } = [] := by
  decide

/-- C4 amended: when neither the modern nested credential shape nor the
legacy flat token shape matches, the extractor returns exactly the
residual mapping with the single pair session -> "unknown"; the output
can be empty only on the modern path, when the credential object exposes
no whitelisted non-null field and no truthy cloudToken. -/
theorem c4_amended_residual_fallback (http : Session)
    (h1 : ∀ creds, http.cloud_credentials ≠ some (true, creds))
    (h2 : ∀ v, http.token = some v → pyTruthy v = false) :
    extract_token_payload http = [("session", PyVal.vStr "unknown")] := by
  have htok : (match http.token with
      | some v =>
        if pyTruthy v then [("token", PyVal.vStr (pyStr v))]
        else [("session", PyVal.vStr "unknown")]
      | none => [("session", PyVal.vStr "unknown")]) = [("session", PyVal.vStr "unknown")] := by
    cases ht : http.token with
    | none => rfl
    | some v => simp [h2 v ht]
  unfold extract_token_payload
  cases hcc : http.cloud_credentials with
  | none =>
    simp only [hcc] at htok ⊢
    exact htok
  | some bc =>
    obtain ⟨b, creds⟩ := bc
    cases b with
    | false =>
      simp only [hcc] at htok ⊢
      exact htok
    | true => exact absurd hcc (h1 creds)

/-- Witness for C4 (amended): the bare session with neither shape yields
the residual mapping. -/
theorem c4_amended_residual_fallback_witness :
    extract_token_payload {} = [("session", PyVal.vStr "unknown")] :=
  c4_amended_residual_fallback {}
    (by intro creds h; cases h)
    (by intro v h; cases h)

/-- C9 (code-bug evaluation): a credential object whose whitelisted
`token` attribute holds the byte string b"abc" is copied into the payload
verbatim as bytes — no best-effort decoding to text happens — and the
resulting payload is not JSON-serializable, contradicting the function's
own docstring. -/
theorem c9_bytes_value_copied_verbatim :
    extract_cloud_creds_whitelist [("token", PyVal.vBytes [97, 98, 99])]
      = [("token", PyVal.vBytes [97, 98, 99])] ∧
    payloadJsonSafe (extract_cloud_creds_whitelist [("token", PyVal.vBytes [97, 98, 99])])
      = false := by
  refine ⟨by decide, by decide⟩

/-- C6: `sync_devices` never succeeds for any store state and account id:
with no document, or a document whose stored ciphertext is falsy, it
raises the `KeyError` mapped to `AccountNotFound`; with any stored
credential it raises the reconnect-instructing `ValueError` mapped to
`SyncUnsupported`, whatever the credential's shape. -/
theorem c6_sync_never_succeeds (st : Store) (account_id : Nat) :
    (∀ r, (sync_devices st account_id).2 ≠ Except.ok r) ∧
    (dlookup st.docs account_id = none →
      (sync_devices st account_id).2
        = Except.error (SyncError.keyError accountNotFoundMessage)) ∧
    (∀ doc, dlookup st.docs account_id = some doc → doc.tokenEncrypted = "" →
      (sync_devices st account_id).2
        = Except.error (SyncError.keyError accountNotFoundMessage)) ∧
    (∀ doc, dlookup st.docs account_id = some doc → doc.tokenEncrypted ≠ "" →
      (sync_devices st account_id).2
        = Except.error (SyncError.valueError syncUnsupportedMessage)) := by
  refine ⟨?_, ?_, ?_, ?_⟩
  · intro r hr
    unfold sync_devices at hr
    cases h : get_account_token st account_id <;> simp only [h] at hr <;> cases hr
  · intro h
    unfold sync_devices get_account_token
    simp [h]
  · intro doc hdoc henc
    unfold sync_devices get_account_token
    simp [hdoc, henc]
  · intro doc hdoc henc
    unfold sync_devices get_account_token
    simp [hdoc, henc]

/-- Witness for C6: a freshly connected account always answers the
reconnect error, and a missing id answers not-found. -/
theorem c6_sync_never_succeeds_witness :
    ((sync_devices (create_or_update_account_auth store0 "a@x.com" "tok" "t0").1 0).2
      = Except.error (SyncError.valueError syncUnsupportedMessage)) ∧
    ((sync_devices store0 5).2
      = Except.error (SyncError.keyError accountNotFoundMessage)) ∧
    (∀ r, (sync_devices store0 5).2 ≠ Except.ok r) :=
  ⟨(c6_sync_never_succeeds (create_or_update_account_auth store0 "a@x.com" "tok" "t0").1 0).2.2.2
      { email := "a@x.com", status := "connected", createdAt := "t0",
        lastSyncedAt := none, tokenEncrypted := encrypt_str "tok", devices := none }
      (by decide) (by decide),
   (c6_sync_never_succeeds store0 5).2.1 (by decide),
   (c6_sync_never_succeeds store0 5).1⟩

/-- C5: for every scripted vendor client, the Login Strategy Engine walks
the declared candidate list in order and stops at the first candidate
whose login cascade yields a session handle: the attempt trace is exactly
the first `i + 1` candidates, each candidate up to the winner is attempted
exactly once, and no later candidate is ever attempted. -/
theorem c5_engine_candidate_order (env : ConnectEnv) (i : Nat) (s : Session)
    (hi : i < api_candidates.length)
    (hbefore : ∀ j, j < i → ∀ s',
      loginCascade (env.login (api_candidates.getD j "")) ≠ Except.ok (some s'))
    (hsucc : loginCascade (env.login (api_candidates.getD i "")) = Except.ok (some s)) :
    engine_result env = ((api_candidates.take (i + 1)).map Event.loginAttempt, some s) ∧
    (∀ j, j < api_candidates.length →
      countEvent (engine_result env).1 (Event.loginAttempt (api_candidates.getD j ""))
        = if j ≤ i then 1 else 0) := by
  have h1 : engine_result env
      = ((api_candidates.take (i + 1)).map Event.loginAttempt, some s) :=
    tryCandidates_first_success _ api_candidates i s hi hbefore hsucc
  refine ⟨h1, ?_⟩
  intro j hj
  have h2 : (engine_result env).1 = (api_candidates.take (i + 1)).map Event.loginAttempt := by
    rw [h1]
  rw [h2]
  have hi5 : i < 5 := by simpa [api_candidates] using hi
  have hj5 : j < 5 := by simpa [api_candidates] using hj
  interval_cases i <;> interval_cases j <;> decide

/-- A concrete environment for the C5 witness: the first endpoint raises,
the second returns a session handle. -/
def c5_env : ConnectEnv :=
  { login := fun url _ =>
      if url = "https://iot.meross.com" then
        CallResult.ret (some { token := some (PyVal.vStr "t") })
      else CallResult.raiseOther "ConnectionError" }

/-- Witness for C5: with the second candidate the first to succeed, the
engine attempts exactly the first two candidates in order. -/
theorem c5_engine_candidate_order_witness :
    engine_result c5_env
      = ((api_candidates.take 2).map Event.loginAttempt,
         some { token := some (PyVal.vStr "t") }) ∧
    (∀ j, j < api_candidates.length →
      countEvent (engine_result c5_env).1 (Event.loginAttempt (api_candidates.getD j ""))
        = if j ≤ 1 then 1 else 0) :=
  c5_engine_candidate_order c5_env 1 { token := some (PyVal.vStr "t") } (by decide)
    (by
      intro j hj s' h
      interval_cases j
      simp [loginCascade, c5_env, api_candidates] at h)
    (by rfl)

/-- C7: on every execution path of `connect_account` where the login loop
produced a session handle — whatever later stage fails — the handle's
close call appears in the call's event trace, and flipping the logout or
close failure flags never changes the call's outcome. -/
theorem c7_session_always_closed (env : ConnectEnv) (st : Store) (email password : String)
    (b1 b2 : Bool)
    (h : ∃ c s, c ∈ api_candidates ∧ loginCascade (env.login c) = Except.ok (some s)) :
    Event.closeCall ∈ (connect_account env st email password).2.1 ∧
    (connect_account { env with logoutFails := b1, closeFails := b2 } st email password).2.2
      = (connect_account env st email password).2.2 := by
  obtain ⟨c, s, hc, hcs⟩ := h
  obtain ⟨s', hs'⟩ := tryCandidates_isSome (fun url => loginCascade (env.login url))
    api_candidates c s hc hcs
  have heng : (engine_result env).2 = some s' := hs'
  have heng' : (engine_result { env with logoutFails := b1, closeFails := b2 }).2 = some s' :=
    hs'
  constructor
  · unfold connect_account
    simp [heng, ignoringExcept_eq]
  · unfold connect_account
    simp only [heng, heng', ignoringExcept_eq]
    rw [connectBody_ignores_cleanup_flags]

/-- A concrete environment for the C7 witness: every endpoint logs in,
while both cleanup calls fail. -/
def c7_env : ConnectEnv :=
  { login := fun _ _ => CallResult.ret (some { token := some (PyVal.vStr "tok") }) }

/-- Witness for C7: a concrete successful connect closes the session, and
failing both logout and close leaves the outcome untouched. -/
theorem c7_session_always_closed_witness :
    Event.closeCall ∈ (connect_account c7_env store0 "a@x.com" "p").2.1 ∧
    (connect_account { c7_env with logoutFails := true, closeFails := true }
        store0 "a@x.com" "p").2.2
      = (connect_account c7_env store0 "a@x.com" "p").2.2 :=
  c7_session_always_closed c7_env store0 "a@x.com" "p" true true
    ⟨"https://iotx.meross.com", { token := some (PyVal.vStr "tok") }, by decide, by rfl⟩

/-- A concrete environment for C8: every call at every endpoint raises a
vendor error carrying its own diagnostic text. -/
def c8_env : ConnectEnv :=
  { login := fun _ _ => CallResult.raiseOther "MerossApiError: wrong user or password" }

/-- C8 counterexample: with the password "Meross" and every candidate
exhausted, the single raised error carries the fixed diagnostic, and that
message does contain a substring equal to the input password — refuting
the claim's no-password-substring clause on this input. -/
theorem c8_counterexample_password_inside_fixed_message :
    (connect_account c8_env store0 "a@x.com" "Meross").2.2
      = ConnectOutcome.valueError loginFailedMessage ∧
    hasSubCh "Meross".toList loginFailedMessage.toList = true := by
  refine ⟨by decide, by decide⟩

/-- C8 amended: when every candidate is exhausted without a session,
`connect_account` raises exactly one `ValueError` whose message is the
fixed generic diagnostic — independent of the email, the password and the
text of every underlying vendor exception, so no vendor exception text and
no password can flow into it, and the password occurs in it only when it
happens to be a substring of that fixed text. -/
theorem c8_amended_fixed_failure_message (env : ConnectEnv) (st : Store)
    (email password : String)
    (hall : ∀ c ∈ api_candidates, ∀ s,
      loginCascade (env.login c) ≠ Except.ok (some s)) :
    (connect_account env st email password).2.2
      = ConnectOutcome.valueError loginFailedMessage := by
  have h := tryCandidates_all_fail (fun url => loginCascade (env.login url))
    api_candidates hall
  have heng : (engine_result env).2 = none := by
    unfold engine_result
    rw [h]
  unfold connect_account
  simp [heng]

/-- Witness for C8 (amended): a concrete all-failing vendor yields the
fixed diagnostic whatever the supplied password. -/
theorem c8_amended_fixed_failure_message_witness :
    (connect_account c8_env store0 "a@x.com" "hunter2").2.2
      = ConnectOutcome.valueError loginFailedMessage :=
  c8_amended_fixed_failure_message c8_env store0 "a@x.com" "hunter2"
    (by
      intro c hc s h
      simp [loginCascade, c8_env] at h)

/-- A concrete environment for C2: every endpoint logs in at once and the
session lists no devices. -/
def c2_env : ConnectEnv :=
  { login := fun _ _ => CallResult.ret (some { token := some (PyVal.vStr "tok") }) }

/-- C2 counterexample: two successful `connect_account` calls for the same
email, starting from the empty store, leave two distinct Account records
carrying that email — refuting upsert-by-email (at most one record per
email). -/
theorem c2_counterexample_two_records_same_email :
    countEmail ((connect_account c2_env
        ((connect_account c2_env store0 "a@x.com" "p").1) "a@x.com" "p").1) "a@x.com"
      = 2 := by
  decide

/-- C2 amended: every successful `connect_account` call appends one
brand-new Account record under a store-assigned id never used before,
carrying the given email; existing records — including ones with the same
email — are never replaced, so records accumulate per connect rather than
upserting by email. -/
theorem c2_amended_fresh_record_per_connect (env : ConnectEnv) (st : Store)
    (email password : String) (s : Session) (raw : SessionDevices)
    (hWF : storeWFb st = true)
    (hlogin : (engine_result env).2 = some s)
    (hsafe : payloadJsonSafe (extract_token_payload s) = true)
    (hdev : s.devices_raw = Except.ok raw)
    (hpa : env.persistAuthFails = false)
    (hpd : env.persistDevicesFails = false) :
    ∃ doc : AccountDoc,
      doc.email = email ∧
      (connect_account env st email password).1.docs = st.docs ++ [(st.nextId, doc)] ∧
      (∀ d, (st.nextId, d) ∉ st.docs) ∧
      (connect_account env st email password).2.2
        = ConnectOutcome.ok st.nextId "connected" (normalize_devices raw) := by
  have hlt : ∀ kv ∈ st.docs, kv.1 < st.nextId := by
    intro kv hkv
    have hk := List.all_eq_true.mp hWF kv hkv
    exact of_decide_eq_true hk
  have hne : ∀ kv ∈ st.docs, kv.1 ≠ st.nextId := by
    intro kv hkv
    have := hlt kv hkv
    omega
  have hfresh : ∀ d, (st.nextId, d) ∉ st.docs := by
    intro d hd
    exact absurd rfl (hne (st.nextId, d) hd)
  unfold connect_account
  simp only [hlogin, ignoringExcept_eq]
  unfold connectBody
  simp only [hsafe, hdev, hpa, hpd, Bool.true_eq_false, Bool.false_eq_true, if_false,
    ignoringExcept_eq]
  unfold create_or_update_account_auth set_account_devices
  refine ⟨{ email := email, status := "connected", createdAt := env.now,
            lastSyncedAt := some env.now,
            tokenEncrypted := encrypt_str (jsonEncode (extract_token_payload s)),
            devices := some (normalize_devices raw) },
          rfl, ?_, hfresh, ?_⟩
  · simp only [List.map_append, List.map_cons, List.map_nil]
    rw [map_updIf_fresh (fun doc => { doc with status := "connected", lastSyncedAt := some env.now, devices := some (normalize_devices raw) }) st.docs st.nextId hne]
    simp
  · rfl

/-- The store holding one already-connected record for the email, used by
the C2 witness. -/
def c2_store1 : Store := (connect_account c2_env store0 "a@x.com" "p").1

/-- Witness for C2 (amended): reconnecting the same email on a store that
already holds a record for it appends a second, fresh record. -/
theorem c2_amended_fresh_record_per_connect_witness :
    ∃ doc : AccountDoc,
      doc.email = "a@x.com" ∧
      (connect_account c2_env c2_store1 "a@x.com" "p").1.docs
        = c2_store1.docs ++ [(c2_store1.nextId, doc)] ∧
      (∀ d, (c2_store1.nextId, d) ∉ c2_store1.docs) ∧
      (connect_account c2_env c2_store1 "a@x.com" "p").2.2
        = ConnectOutcome.ok c2_store1.nextId "connected"
            (normalize_devices (SessionDevices.list [])) :=
  c2_amended_fresh_record_per_connect c2_env c2_store1 "a@x.com" "p"
    { token := some (PyVal.vStr "tok") } (SessionDevices.list [])
    (by decide) (by rfl) (by decide) (by rfl) (by rfl) (by rfl)

/-- C10: `sync_devices` is a pure read of the Account Store: for every
store state and id, the store when the call ends is exactly the store when
it began, so every document's credential, device list, `lastSyncedAt` and
status are unchanged on both the not-found and the unsupported path. -/
theorem c10_sync_leaves_store_unchanged (st : Store) (account_id : Nat) :
    (sync_devices st account_id).1 = st ∧
    (∀ a, dlookup ((sync_devices st account_id).1).docs a = dlookup st.docs a) := by
  have h : (sync_devices st account_id).1 = st := by
    unfold sync_devices
    cases hg : get_account_token st account_id <;> simp [hg]
  exact ⟨h, fun a => by rw [h]⟩

end MerossRebooter
